import Mathlib

/-!
Shallow embedding of the real-time coordination layer of the
`raspberry_pi_parking` system: slot monitoring (`slot_handler.py`),
barrier control (`barrier_handler.py`), the QR cooldown gate
(`camera_handler.py`) and the inbound command handler (`mqtt_handler.py`).

Machine state is modelled explicitly; wall-clock timestamps (`time.time()`)
are rationals, hardware reads that may raise are `Option` values, and the
actuator call that may raise is a boolean parameter saying whether it
succeeds.
-/

namespace SmartParking

/-! ## Configuration (`config.py`) -/

namespace config

def BARRIER_CLOSED_ANGLE : Nat := 0

def BARRIER_OPEN_ANGLE : Nat := 90

def BARRIER_OPEN_DURATION : ℚ := 5

def QR_COOLDOWN_SECONDS : ℚ := 5

def NUM_REAL_SENSORS : Nat := 6

def REAL_SLOT_MAPPING : List Nat := [2, 5, 8, 12, 15, 18]

def TOTAL_SLOTS : Nat := 20

end config

/-! ## Slot handler (`slot_handler.py`)

A slot configuration generalises the constants `REAL_SLOT_MAPPING` /
`TOTAL_SLOTS` so the claims quantifying over "every valid configuration"
can be stated. -/

structure SlotConfig where
  TOTAL_SLOTS : Nat
  REAL_SLOT_MAPPING : List Nat
deriving DecidableEq

/-- The default configuration from `config.py`. -/
def defaultSlotConfig : SlotConfig :=
  { TOTAL_SLOTS := config.TOTAL_SLOTS
    REAL_SLOT_MAPPING := config.REAL_SLOT_MAPPING }

/-- One write of the loop body of `_update_virtual_slots`: take the sensor
occupancy `b` bound to slot number `m`, convert to the 0-indexed
`slot_index = m - 1` (Python integer arithmetic, hence `Int`), and write it
into the virtual table when `0 <= slot_index < TOTAL_SLOTS`. -/
def writeSlot (total : Nat) (virtual : List Bool) (p : Nat × Bool) : List Bool :=
  if 0 ≤ (p.1 : Int) - 1 ∧ (p.1 : Int) - 1 < (total : Int) then
    virtual.set ((p.1 : Int) - 1).toNat p.2
  else
    virtual

/-- Embedding of `_update_virtual_slots`: reset the whole table to occupied (`true`), then
write each real sensor's state at its mapped slot.  The pairing
`zip REAL_SLOT_MAPPING real` matches the Python loop
`for i in range(NUM_REAL_SENSORS)` when `real` has one entry per sensor. -/
def update_virtual_slots (cfg : SlotConfig) (real : List Bool) : List Bool :=
  (cfg.REAL_SLOT_MAPPING.zip real).foldl (writeSlot cfg.TOTAL_SLOTS)
    (List.replicate cfg.TOTAL_SLOTS true)

/-- Embedding of `get_available_slots`: the 1-based numbers of all virtual slots whose
state is `False` (available). -/
def get_available_slots (virtual : List Bool) : List Nat :=
  ((List.range virtual.length).filter (fun i => virtual.getD i true = false)).map
    (fun i => i + 1)

/-! ## Camera handler (`camera_handler.py`)

The cooldown registry `last_qr_times` maps a channel to the time of its
last admitted QR detection. -/

inductive Channel where
  | entry
  | exitCam
deriving DecidableEq

structure AdmittedEvent where
  channel : Channel
  payload : String
  time : ℚ
deriving DecidableEq

/-- The cooldown logic of one `_monitor_camera` iteration whose frame decodes
a QR code `payload` at time `now` on channel `ch`: when
`now - last_qr_times[ch] < QR_COOLDOWN_SECONDS` the detection is skipped and
the registry is untouched; otherwise `last_qr_times[ch]` is set to `now` and
the callback fires with the detection. -/
def monitor_camera_step (last_qr_times : Channel → ℚ) (ch : Channel) (payload : String)
    (now : ℚ) : Option AdmittedEvent × (Channel → ℚ) :=
  if now - last_qr_times ch < config.QR_COOLDOWN_SECONDS then
    (none, last_qr_times)
  else
    (some { channel := ch, payload := payload, time := now },
      fun c => if c = ch then now else last_qr_times c)

/-! ## MQTT handler (`mqtt_handler.py`) -/

/-- The JSON object of a door command; `none` marks an absent field. -/
structure DoorMsg where
  action : Option String
  barrier : Option String
  userId : Option String
  slotNumber : Option Int
  timestamp : Option String
deriving DecidableEq

/-- An inbound payload: either unparseable JSON or a parsed object. -/
inductive RawDoorMsg where
  | malformed
  | parsed (m : DoorMsg)
deriving DecidableEq

/-- Observable outcome of `_handle_door_command`: the `json.JSONDecodeError`
branch, the unknown-action warning branch, or a callback dispatch carrying
`(barrier, user_id, slot_number, timestamp)`. -/
inductive DoorCommandOutcome where
  | invalidJson
  | unknownAction (a : String)
  | dispatched (barrier user_id : String) (slot_number : Int) (timestamp : String)
deriving DecidableEq

/-- Python's `str.lower()` on the ASCII strings involved: lower-case each
character. -/
def pyLower (s : String) : String := String.mk (s.data.map Char.toLower)

/-- Embedding of `_handle_door_command`: parse, read fields with defaults
(`action`/`barrier` default `""` then lowercased, `userId` defaults
`"Unknown"`, `slotNumber` defaults `0`, `timestamp` defaults `""`), dispatch
when the action is `open`, otherwise log an unknown-action warning. -/
def handle_door_command (msg : RawDoorMsg) : DoorCommandOutcome :=
  match msg with
  | .malformed => .invalidJson
  | .parsed m =>
    if pyLower (m.action.getD "") = "open" then
      .dispatched (pyLower (m.barrier.getD "")) (m.userId.getD "Unknown")
        (m.slotNumber.getD 0) (m.timestamp.getD "")
    else
      .unknownAction (pyLower (m.action.getD ""))

/-! ## Sensor polling loop (`slot_handler.py`, `_monitor_sensors`)

One body of the `while` loop, given this cycle's hardware read results in
sensor order (`none` = `GPIO.input` raised).  Sensors are compared against
the stored state and written in order; the first failing read raises out of
the pass to the `except` clause (which logs and lets the loop continue),
leaving the writes already made in place and skipping the callback.  The
result is the stored sensor state after the cycle, whether the change
callback fired, and whether an exception was caught. -/

def monitor_sensors_cycle : List (Option Bool) → List Bool → Nat → Bool →
    List Bool × Bool × Bool
  | [], stored, _, changed => (stored, changed, false)
  | none :: _, stored, _, _ => (stored, false, true)
  | some b :: rest, stored, i, changed =>
    if b = stored.getD i false then
      monitor_sensors_cycle rest stored (i + 1) changed
    else
      monitor_sensors_cycle rest (stored.set i b) (i + 1) true

/-! ## Barrier handler (`barrier_handler.py`)

`time.time()` values are rationals.  `_set_servo_angle` is a blocking servo
command that may raise; the parameter `actOk` says whether it succeeds.  A
call result records the state after the call, the servo commands attempted
(`(pwm lane, angle)` pairs), whether an exception escaped to the caller
(`raised` — always `false`, the bodies are wrapped in `try/except`), and
whether an exception was caught and logged (`caught`). -/

structure BarrierState where
  entry_open : Bool
  exit_open : Bool
  entry_timer : ℚ
  exit_timer : ℚ
deriving DecidableEq

/-- Startup state from `BarrierHandler.__init__`: both lanes closed, both timers 0. -/
def barrierInit : BarrierState :=
  { entry_open := false, exit_open := false, entry_timer := 0, exit_timer := 0 }

structure BarrierCallResult where
  state : BarrierState
  actuations : List (String × Nat)
  raised : Bool
  caught : Bool
deriving DecidableEq

/-- Embedding of `open_barrier`: under the lock, drive the matching servo to the open
angle, then set the open flag and stamp the timer with `now`.  An exception
from the servo call skips the state updates and is caught and logged.  An
unknown `barrier_type` only logs a warning. -/
def open_barrier (actOk : Bool) (barrier_type : String) (now : ℚ) (s : BarrierState) :
    BarrierCallResult :=
  if barrier_type = "entry" then
    { state := if actOk then { s with entry_open := true, entry_timer := now } else s
      actuations := [("entry", config.BARRIER_OPEN_ANGLE)]
      raised := false
      caught := !actOk }
  else if barrier_type = "exit" then
    { state := if actOk then { s with exit_open := true, exit_timer := now } else s
      actuations := [("exit", config.BARRIER_OPEN_ANGLE)]
      raised := false
      caught := !actOk }
  else
    { state := s, actuations := [], raised := false, caught := false }

/-- Embedding of `close_barrier`: under the lock, when the lane is open, drive the servo
to the closed angle, clear the open flag and zero the timer; otherwise do
nothing.  An exception from the servo call skips the state updates and is
caught and logged. -/
def close_barrier (actOk : Bool) (barrier_type : String) (s : BarrierState) :
    BarrierCallResult :=
  if barrier_type = "entry" then
    if s.entry_open then
      { state := if actOk then { s with entry_open := false, entry_timer := 0 } else s
        actuations := [("entry", config.BARRIER_CLOSED_ANGLE)]
        raised := false
        caught := !actOk }
    else
      { state := s, actuations := [], raised := false, caught := false }
  else if barrier_type = "exit" then
    if s.exit_open then
      { state := if actOk then { s with exit_open := false, exit_timer := 0 } else s
        actuations := [("exit", config.BARRIER_CLOSED_ANGLE)]
        raised := false
        caught := !actOk }
    else
      { state := s, actuations := [], raised := false, caught := false }
  else
    { state := s, actuations := [], raised := false, caught := false }

/-- First half of one `_auto_close_handler` iteration: close the entry lane
when it is open and `current_time - entry_timer > BARRIER_OPEN_DURATION`
(strict comparison, as in the source). -/
def auto_close_entry_check (actOk : Bool) (now : ℚ) (s : BarrierState) :
    BarrierState × List (String × Nat) :=
  if s.entry_open ∧ now - s.entry_timer > config.BARRIER_OPEN_DURATION then
    ((close_barrier actOk "entry" s).state, (close_barrier actOk "entry" s).actuations)
  else
    (s, [])

/-- Second half of one `_auto_close_handler` iteration: same check for the
exit lane, on the state left by the entry check. -/
def auto_close_exit_check (actOk : Bool) (now : ℚ) (p : BarrierState × List (String × Nat)) :
    BarrierState × List (String × Nat) :=
  if p.1.exit_open ∧ now - p.1.exit_timer > config.BARRIER_OPEN_DURATION then
    ((close_barrier actOk "exit" p.1).state, p.2 ++ (close_barrier actOk "exit" p.1).actuations)
  else
    p

/-- One full iteration of the `_auto_close_handler` watchdog loop at time
`now`. -/
def auto_close_tick (actOk : Bool) (now : ℚ) (s : BarrierState) :
    BarrierState × List (String × Nat) :=
  auto_close_exit_check actOk now (auto_close_entry_check actOk now s)

/-- The state mutations that can hit a `BarrierState` during the process
lifetime: a manual or dispatched open, a manual close, and a watchdog
iteration. -/
inductive BarrierEvent where
  | openB (actOk : Bool) (barrier_type : String) (now : ℚ)
  | closeB (actOk : Bool) (barrier_type : String)
  | tick (actOk : Bool) (now : ℚ)

def barrierStep : BarrierEvent → BarrierState → BarrierState
  | .openB ok bt now, s => (open_barrier ok bt now s).state
  | .closeB ok bt, s => (close_barrier ok bt s).state
  | .tick ok now, s => (auto_close_tick ok now s).1

/-- Timestamps from `time.time()` are strictly positive, so the timestamp stamped by an open
is nonzero. -/
def BarrierEventValid : BarrierEvent → Prop
  | .openB _ _ now => 0 < now
  | .closeB _ _ => True
  | .tick _ _ => True

/-- States reachable from startup through open/close calls and watchdog
iterations. -/
inductive ReachableB : BarrierState → Prop
  | init : ReachableB barrierInit
  | step (s : BarrierState) (e : BarrierEvent) : ReachableB s → BarrierEventValid e →
      ReachableB (barrierStep e s)

/-- The claimed state invariant: a lane's timer is nonzero exactly when the
lane is open. -/
def timerInv (s : BarrierState) : Prop :=
  (s.entry_open = true ↔ s.entry_timer ≠ 0) ∧ (s.exit_open = true ↔ s.exit_timer ≠ 0)

/-! ### Lemmas about `update_virtual_slots` -/

theorem length_writeSlot (total : Nat) (v : List Bool) (p : Nat × Bool) :
    (writeSlot total v p).length = v.length := by
  unfold writeSlot
  split <;> simp

theorem length_foldl_writeSlot (total : Nat) (ps : List (Nat × Bool)) (v : List Bool) :
    (ps.foldl (writeSlot total) v).length = v.length := by
  induction ps generalizing v with
  | nil => rfl
  | cons p ps ih =>
    simp only [List.foldl_cons]
    rw [ih, length_writeSlot]

/-- A write bound to slot number `p.1 ≠ j + 1` leaves virtual slot index `j`
unchanged. -/
theorem getD_writeSlot_ne (total : Nat) (v : List Bool) (p : Nat × Bool) (j : Nat) (d : Bool)
    (h : p.1 ≠ j + 1) : (writeSlot total v p).getD j d = v.getD j d := by
  unfold writeSlot
  split
  case isTrue hc =>
    have hne : ((p.1 : Int) - 1).toNat ≠ j := by omega
    have hne2 : p.1 - 1 ≠ j := by omega
    simp [List.getD_eq_getElem?_getD, List.getElem?_set_ne hne, List.getElem?_set_ne hne2]
  case isFalse => rfl

/-- A write bound to an in-range slot number `m` stores the sensor value at
index `m - 1`. -/
theorem getD_writeSlot_self (total : Nat) (v : List Bool) (m : Nat) (b : Bool) (d : Bool)
    (h1 : 1 ≤ m) (h2 : m ≤ total) (hv : v.length = total) :
    (writeSlot total v (m, b)).getD (m - 1) d = b := by
  unfold writeSlot
  split
  case isTrue hc =>
    have ht : ((m : Int) - 1).toNat = m - 1 := by omega
    have hlt : m - 1 < v.length := by omega
    rw [ht]
    simp [List.getD_eq_getElem?_getD, List.getElem?_set_eq_of_lt b hlt]
  case isFalse hc =>
    exact absurd (by constructor <;> omega) hc

theorem getD_foldl_writeSlot_not_mem (total : Nat) (ps : List (Nat × Bool)) (v : List Bool)
    (j : Nat) (d : Bool) (h : ∀ p ∈ ps, p.1 ≠ j + 1) :
    (ps.foldl (writeSlot total) v).getD j d = v.getD j d := by
  induction ps generalizing v with
  | nil => rfl
  | cons p ps ih =>
    simp only [List.foldl_cons]
    rw [ih _ (fun q hq => h q (List.mem_cons_of_mem _ hq))]
    exact getD_writeSlot_ne total v p j d (h p (List.mem_cons_self _ _))

/-- With pairwise-distinct slot numbers, the fold stores each bound sensor's
value at its slot. -/
theorem getD_foldl_writeSlot_mem (total : Nat) (ps : List (Nat × Bool)) (v : List Bool)
    (m : Nat) (b : Bool) (d : Bool) (hmem : (m, b) ∈ ps) (hnd : (ps.map Prod.fst).Nodup)
    (h1 : 1 ≤ m) (h2 : m ≤ total) (hv : v.length = total) :
    (ps.foldl (writeSlot total) v).getD (m - 1) d = b := by
  induction ps generalizing v with
  | nil => cases hmem
  | cons p ps ih =>
    simp only [List.map_cons, List.nodup_cons] at hnd
    simp only [List.foldl_cons]
    rcases List.mem_cons.mp hmem with heq | hmem'
    · subst heq
      rw [getD_foldl_writeSlot_not_mem]
      · exact getD_writeSlot_self total v m b d h1 h2 hv
      · intro q hq hcon
        have hq1 : q.1 ∈ ps.map Prod.fst := List.mem_map_of_mem _ hq
        have hqm : q.1 = m := by omega
        rw [hqm] at hq1
        exact hnd.1 hq1
    · exact ih _ hmem' hnd.2 ((length_writeSlot total v p).trans hv)

theorem getD_replicate_true (n i : Nat) : (List.replicate n true).getD i true = true := by
  simp [List.getD_eq_getElem?_getD, List.getElem?_replicate]
  split <;> simp

theorem zip_getD_mem (a : List Nat) (b : List Bool) (i : Nat) (h1 : i < a.length)
    (h2 : i < b.length) : (a.getD i 0, b.getD i false) ∈ a.zip b := by
  have hz : i < (a.zip b).length := by rw [List.length_zip]; omega
  have hmem := List.getElem_mem hz
  rw [List.getElem_zip] at hmem
  rw [List.getD_eq_getElem?_getD, List.getD_eq_getElem?_getD,
    List.getElem?_eq_getElem h1, List.getElem?_eq_getElem h2]
  exact hmem

/-- C1: for every valid configuration (an injective sensor-to-slot mapping into
`1..TOTAL_SLOTS`) and every physical sensor state, after `_update_virtual_slots`
recomputes the table, every virtual slot bound to a physical sensor equals that
sensor's occupied value and every virtual slot not bound to any sensor is
reported occupied (`true`); in particular with sensors mapped to slots
`{2,5,8}` of 10 and sensor 1 occupied, exactly slots `{5,8}` are available. -/
theorem claim_C1_virtual_slot_table (cfg : SlotConfig) (real : List Bool)
    (hlen : real.length = cfg.REAL_SLOT_MAPPING.length)
    (hrange : ∀ m ∈ cfg.REAL_SLOT_MAPPING, 1 ≤ m ∧ m ≤ cfg.TOTAL_SLOTS)
    (hinj : cfg.REAL_SLOT_MAPPING.Nodup) :
    (update_virtual_slots cfg real).length = cfg.TOTAL_SLOTS ∧
    (∀ i, i < cfg.REAL_SLOT_MAPPING.length →
      (update_virtual_slots cfg real).getD (cfg.REAL_SLOT_MAPPING.getD i 0 - 1) true
        = real.getD i false) ∧
    (∀ j, j < cfg.TOTAL_SLOTS → (j + 1) ∉ cfg.REAL_SLOT_MAPPING →
      (update_virtual_slots cfg real).getD j true = true) ∧
    get_available_slots (update_virtual_slots ⟨10, [2, 5, 8]⟩ [true, false, false]) = [5, 8] := by
  have hfst : (cfg.REAL_SLOT_MAPPING.zip real).map Prod.fst = cfg.REAL_SLOT_MAPPING :=
    List.map_fst_zip _ _ (le_of_eq hlen.symm)
  refine ⟨?_, ?_, ?_, by decide⟩
  · unfold update_virtual_slots
    rw [length_foldl_writeSlot, List.length_replicate]
  · intro i hi
    have hi2 : i < real.length := by omega
    have hmmem : cfg.REAL_SLOT_MAPPING.getD i 0 ∈ cfg.REAL_SLOT_MAPPING := by
      rw [List.getD_eq_getElem?_getD, List.getElem?_eq_getElem hi]
      exact List.getElem_mem hi
    rcases hrange _ hmmem with ⟨hm1, hm2⟩
    exact getD_foldl_writeSlot_mem cfg.TOTAL_SLOTS _ _ _ _ _
      (zip_getD_mem _ _ i hi hi2) (by rw [hfst]; exact hinj) hm1 hm2
      (List.length_replicate _ _)
  · intro j hj hnb
    unfold update_virtual_slots
    rw [getD_foldl_writeSlot_not_mem]
    · exact getD_replicate_true _ _
    · intro q hq hcon
      apply hnb
      rw [← hfst]
      rw [← hcon]
      exact List.mem_map_of_mem _ hq

/-- Witness for C1 at the spec's end-to-end configuration. -/
theorem claim_C1_witness :
    (update_virtual_slots ⟨10, [2, 5, 8]⟩ [true, false, false]).length = 10 ∧
    get_available_slots (update_virtual_slots ⟨10, [2, 5, 8]⟩ [true, false, false]) = [5, 8] :=
  ⟨(claim_C1_virtual_slot_table ⟨10, [2, 5, 8]⟩ [true, false, false] (by decide) (by decide)
      (by decide)).1,
   (claim_C1_virtual_slot_table ⟨10, [2, 5, 8]⟩ [true, false, false] (by decide) (by decide)
      (by decide)).2.2.2⟩

/-! ### Barrier handler theorems -/

theorem close_barrier_entry_spec (s : BarrierState) (h : s.entry_open = true) :
    (close_barrier true "entry" s).state = { s with entry_open := false, entry_timer := 0 } := by
  simp [close_barrier, h]

theorem close_barrier_exit_spec (s : BarrierState) (h : s.exit_open = true) :
    (close_barrier true "exit" s).state = { s with exit_open := false, exit_timer := 0 } := by
  simp [close_barrier, h]

theorem auto_close_entry_check_spec (now : ℚ) (s : BarrierState) :
    (auto_close_entry_check true now s).1 =
      if s.entry_open ∧ now - s.entry_timer > config.BARRIER_OPEN_DURATION then
        { s with entry_open := false, entry_timer := 0 }
      else s := by
  unfold auto_close_entry_check
  split_ifs with h
  · exact close_barrier_entry_spec s h.1
  · rfl

theorem auto_close_exit_check_spec (now : ℚ) (p : BarrierState × List (String × Nat)) :
    (auto_close_exit_check true now p).1 =
      if p.1.exit_open ∧ now - p.1.exit_timer > config.BARRIER_OPEN_DURATION then
        { p.1 with exit_open := false, exit_timer := 0 }
      else p.1 := by
  unfold auto_close_exit_check
  split_ifs with h
  · exact close_barrier_exit_spec p.1 h.1
  · rfl

/-- A closed form for one watchdog iteration with a working actuator: each
lane is closed (flag cleared, timer zeroed) exactly when it was open and
`now - timer` strictly exceeds `BARRIER_OPEN_DURATION`; otherwise its fields
are untouched. -/
theorem auto_close_tick_spec (now : ℚ) (s : BarrierState) :
    (auto_close_tick true now s).1 =
      { entry_open := if s.entry_open ∧ now - s.entry_timer > config.BARRIER_OPEN_DURATION
          then false else s.entry_open
        exit_open := if s.exit_open ∧ now - s.exit_timer > config.BARRIER_OPEN_DURATION
          then false else s.exit_open
        entry_timer := if s.entry_open ∧ now - s.entry_timer > config.BARRIER_OPEN_DURATION
          then 0 else s.entry_timer
        exit_timer := if s.exit_open ∧ now - s.exit_timer > config.BARRIER_OPEN_DURATION
          then 0 else s.exit_timer } := by
  unfold auto_close_tick
  rw [auto_close_exit_check_spec, auto_close_entry_check_spec]
  by_cases hP : s.entry_open = true ∧ now - s.entry_timer > config.BARRIER_OPEN_DURATION <;>
    by_cases hQ : s.exit_open = true ∧ now - s.exit_timer > config.BARRIER_OPEN_DURATION <;>
    simp [hP, hQ]

/-- C3 (amended): the watchdog closes a lane iff it is open and
`now - opened_at` is strictly greater than `OPEN_DURATION` (the source
compares with `>`, not `≥`); a lane whose timer was refreshed at `t` is
still open whenever `now - t ≤ OPEN_DURATION`; with `open_duration = 5` s a
lane opened at 0 is still open at 4.9 s and closed at 5.1 s. -/
theorem claim_C3_auto_close_watchdog (s : BarrierState) (now : ℚ) :
    ((auto_close_tick true now s).1.entry_open = false ↔
      (s.entry_open = false ∨ now - s.entry_timer > config.BARRIER_OPEN_DURATION)) ∧
    ((auto_close_tick true now s).1.exit_open = false ↔
      (s.exit_open = false ∨ now - s.exit_timer > config.BARRIER_OPEN_DURATION)) ∧
    (∀ t s0, now - t ≤ config.BARRIER_OPEN_DURATION →
      (auto_close_tick true now ((open_barrier true "entry" t s0).state)).1.entry_open = true) ∧
    (auto_close_tick true (49/10)
      { entry_open := true, exit_open := false, entry_timer := 0, exit_timer := 0 }).1.entry_open
      = true ∧
    (auto_close_tick true (51/10)
      { entry_open := true, exit_open := false, entry_timer := 0, exit_timer := 0 }).1.entry_open
      = false := by
  refine ⟨?_, ?_, ?_, ?_, ?_⟩
  · rw [auto_close_tick_spec]
    by_cases h : s.entry_open ∧ now - s.entry_timer > config.BARRIER_OPEN_DURATION
    · simp only [if_pos h]
      tauto
    · simp only [if_neg h]
      cases he : s.entry_open <;> simp_all
  · rw [auto_close_tick_spec]
    by_cases h : s.exit_open ∧ now - s.exit_timer > config.BARRIER_OPEN_DURATION
    · simp only [if_pos h]
      tauto
    · simp only [if_neg h]
      cases he : s.exit_open <;> simp_all
  · intro t s0 ht
    rw [auto_close_tick_spec]
    have : ¬ ((open_barrier true "entry" t s0).state.entry_open ∧
        now - (open_barrier true "entry" t s0).state.entry_timer >
          config.BARRIER_OPEN_DURATION) := by
      simp only [open_barrier, if_pos rfl, if_pos rfl]
      intro hcon
      exact absurd hcon.2 (by simpa using ht)
    simp only [if_neg this]
    simp [open_barrier]
  · norm_num [auto_close_tick, auto_close_entry_check, auto_close_exit_check, close_barrier,
      config.BARRIER_OPEN_DURATION]
  · norm_num [auto_close_tick, auto_close_entry_check, auto_close_exit_check, close_barrier,
      config.BARRIER_OPEN_DURATION]

/-- Witness for C3 at a concrete open state and time. -/
theorem claim_C3_witness :
    (auto_close_tick true 6
      { entry_open := true, exit_open := false, entry_timer := 0, exit_timer := 0 }).1.entry_open
      = false :=
  (claim_C3_auto_close_watchdog
    { entry_open := true, exit_open := false, entry_timer := 0, exit_timer := 0 } 6).1.mpr
    (Or.inr (by norm_num [config.BARRIER_OPEN_DURATION]))

/-- C3 counterexample to the claim as stated: at exactly
`now - opened_at = OPEN_DURATION` (`now = 5`, `opened_at = 0`) the claim
demands the lane be closed, but the watchdog leaves it open (the source
compares with strict `>`). -/
theorem claim_C3_counterexample :
    (5 : ℚ) - 0 ≥ config.BARRIER_OPEN_DURATION ∧
    (auto_close_tick true 5
      { entry_open := true, exit_open := false, entry_timer := 0, exit_timer := 0 }).1.entry_open
      = true := by
  constructor
  · norm_num [config.BARRIER_OPEN_DURATION]
  · norm_num [auto_close_tick, auto_close_entry_check, auto_close_exit_check, close_barrier,
      config.BARRIER_OPEN_DURATION]

/-- C4 (amended): `open_barrier` always drives the actuator to the open
angle and re-stamps the timer, whether or not the lane is already open; its
state outcome is idempotent (re-opening an open lane equals opening at the
later time), but each call issues one physical actuation. -/
theorem claim_C4_open_always_actuates (s : BarrierState) (now t : ℚ) :
    open_barrier true "entry" now s =
      { state := { s with entry_open := true, entry_timer := now }
        actuations := [("entry", config.BARRIER_OPEN_ANGLE)]
        raised := false
        caught := false } ∧
    open_barrier true "exit" now s =
      { state := { s with exit_open := true, exit_timer := now }
        actuations := [("exit", config.BARRIER_OPEN_ANGLE)]
        raised := false
        caught := false } ∧
    (open_barrier true "entry" now ((open_barrier true "entry" t s).state)).state =
      (open_barrier true "entry" now s).state ∧
    (open_barrier true "exit" now ((open_barrier true "exit" t s).state)).state =
      (open_barrier true "exit" now s).state :=
  ⟨rfl, rfl, rfl, rfl⟩

/-- C4 counterexample to the claim as stated: opening the entry lane while it
is already open issues a second physical actuation call (the source has no
already-open check). -/
theorem claim_C4_counterexample :
    ((open_barrier true "entry" 1 barrierInit).state).entry_open = true ∧
    (open_barrier true "entry" 2 ((open_barrier true "entry" 1 barrierInit).state)).actuations
      ≠ [] := by
  refine ⟨rfl, ?_⟩
  simp [open_barrier]

/-- C6 (amended): when the physical actuation call raises inside
`open_barrier` or `close_barrier`, the exception is caught and logged, the
caller sees a normal return (no error is surfaced), the in-memory lane state
is unchanged, and a retry behaves exactly like a first attempt. -/
theorem claim_C6_actuation_failure_semantics (bt : String) (now : ℚ) (s : BarrierState) :
    (open_barrier false bt now s).state = s ∧
    (open_barrier false bt now s).raised = false ∧
    (close_barrier false bt s).state = s ∧
    (close_barrier false bt s).raised = false ∧
    open_barrier true bt now ((open_barrier false bt now s).state) =
      open_barrier true bt now s ∧
    close_barrier true bt ((close_barrier false bt s).state) = close_barrier true bt s := by
  have h1 : (open_barrier false bt now s).state = s := by
    unfold open_barrier
    split_ifs <;> first | rfl | contradiction
  have h2 : (close_barrier false bt s).state = s := by
    unfold close_barrier
    split_ifs <;> first | rfl | contradiction
  have h3 : (open_barrier false bt now s).raised = false := by
    unfold open_barrier
    split_ifs <;> rfl
  have h4 : (close_barrier false bt s).raised = false := by
    unfold close_barrier
    split_ifs <;> rfl
  exact ⟨h1, h3, h2, h4, by rw [h1], by rw [h2]⟩

/-- C6 counterexample to the claim as stated: a failed entry-lane actuation
is caught inside the handler (`caught = true`) and nothing reaches the
caller (`raised = false` and the call's only return value carries no error),
contradicting "surfaced to the caller as an error result". -/
theorem claim_C6_counterexample :
    (open_barrier false "entry" 1 barrierInit).caught = true ∧
    (open_barrier false "entry" 1 barrierInit).raised = false ∧
    (close_barrier false "entry"
      { entry_open := true, exit_open := false, entry_timer := 1, exit_timer := 0 }).caught
      = true ∧
    (close_barrier false "entry"
      { entry_open := true, exit_open := false, entry_timer := 1, exit_timer := 0 }).raised
      = false :=
  ⟨rfl, rfl, rfl, rfl⟩

/-- C9: calling `open_barrier` with a barrier type that is neither
`"entry"` nor `"exit"` issues no actuator command, leaves both lanes' flags
and timers untouched, and returns normally (only a warning is logged). -/
theorem claim_C9_unknown_barrier_noop (actOk : Bool) (bt : String) (now : ℚ)
    (s : BarrierState) (h1 : bt ≠ "entry") (h2 : bt ≠ "exit") :
    open_barrier actOk bt now s =
      { state := s, actuations := [], raised := false, caught := false } := by
  unfold open_barrier
  rw [if_neg h1, if_neg h2]

/-- Witness for C9 at `barrier_type = "garage"`. -/
theorem claim_C9_witness :
    open_barrier true "garage" 1 barrierInit =
      { state := barrierInit, actuations := [], raised := false, caught := false } :=
  claim_C9_unknown_barrier_noop true "garage" 1 barrierInit (by decide) (by decide)

theorem timerInv_open (s : BarrierState) (ok : Bool) (bt : String) (now : ℚ)
    (hs : timerInv s) (hnow : 0 < now) : timerInv ((open_barrier ok bt now s).state) := by
  obtain ⟨he, hx⟩ := hs
  unfold open_barrier
  split_ifs <;> try exact ⟨he, hx⟩
  · exact ⟨by simpa using ne_of_gt hnow, hx⟩
  · exact ⟨he, by simpa using ne_of_gt hnow⟩

theorem timerInv_close (s : BarrierState) (ok : Bool) (bt : String)
    (hs : timerInv s) : timerInv ((close_barrier ok bt s).state) := by
  obtain ⟨he, hx⟩ := hs
  unfold close_barrier
  split_ifs <;> try exact ⟨he, hx⟩
  · exact ⟨by simp, hx⟩
  · exact ⟨he, by simp⟩

theorem timerInv_tick (s : BarrierState) (ok : Bool) (now : ℚ)
    (hs : timerInv s) : timerInv ((auto_close_tick ok now s).1) := by
  unfold auto_close_tick auto_close_exit_check auto_close_entry_check
  split_ifs <;>
    first
      | exact hs
      | exact timerInv_close _ ok _ hs
      | exact timerInv_close _ ok _ (timerInv_close _ ok _ hs)

theorem timerInv_reachable (s : BarrierState) (h : ReachableB s) : timerInv s := by
  induction h with
  | init => exact ⟨by simp [barrierInit], by simp [barrierInit]⟩
  | step s e hs hv ih =>
    cases e with
    | openB ok bt now => exact timerInv_open s ok bt now ih hv
    | closeB ok bt => exact timerInv_close s ok bt ih
    | tick ok now => exact timerInv_tick s ok now ih

/-- C8: in every reachable barrier state a lane's timer is nonzero iff the
lane is open; the state starts closed with both timers 0; a successful open
sets the flag and stamps the timer; a successful close on an open lane
clears both fields, and a close on a closed lane is a no-op normal return. -/
theorem claim_C8_barrier_state_invariant :
    (∀ s, ReachableB s → timerInv s) ∧
    (barrierInit.entry_open = false ∧ barrierInit.exit_open = false ∧
      barrierInit.entry_timer = 0 ∧ barrierInit.exit_timer = 0) ∧
    (∀ s now, (open_barrier true "entry" now s).state.entry_open = true ∧
      (open_barrier true "entry" now s).state.entry_timer = now ∧
      (open_barrier true "exit" now s).state.exit_open = true ∧
      (open_barrier true "exit" now s).state.exit_timer = now) ∧
    (∀ s, s.entry_open = true →
      (close_barrier true "entry" s).state = { s with entry_open := false, entry_timer := 0 }) ∧
    (∀ s, s.exit_open = true →
      (close_barrier true "exit" s).state = { s with exit_open := false, exit_timer := 0 }) ∧
    (∀ s, s.entry_open = false →
      close_barrier true "entry" s =
        { state := s, actuations := [], raised := false, caught := false }) ∧
    (∀ s, s.exit_open = false →
      close_barrier true "exit" s =
        { state := s, actuations := [], raised := false, caught := false }) := by
  refine ⟨timerInv_reachable, ⟨rfl, rfl, rfl, rfl⟩, fun s now => ⟨rfl, rfl, rfl, rfl⟩,
    fun s h => close_barrier_entry_spec s h, fun s h => close_barrier_exit_spec s h,
    fun s h => ?_, fun s h => ?_⟩
  · simp [close_barrier, h]
  · simp [close_barrier, h]

/-- Witness for C8: the invariant at the initial state, and the no-op close
on the initial (closed) entry lane. -/
theorem claim_C8_witness :
    timerInv barrierInit ∧
    close_barrier true "entry" barrierInit =
      { state := barrierInit, actuations := [], raised := false, caught := false } :=
  ⟨claim_C8_barrier_state_invariant.1 barrierInit ReachableB.init,
    claim_C8_barrier_state_invariant.2.2.2.2.2.1 barrierInit rfl⟩

/-! ### Camera cooldown theorems -/

/-- C2: with `t` the registry's time of the last admitted event on channel
`ch`, a detection at `now` is suppressed (no admission, registry untouched)
when `now - t < QR_COOLDOWN_SECONDS`; otherwise it is admitted and the
registry entry for `ch` is updated to `now` with the other channel's entry
untouched; and a detection on any channel depends only on that channel's own
registry entry, so the other channel's cooldown state is irrelevant. -/
theorem claim_C2_detection_gate (lt : Channel → ℚ) (ch ch2 : Channel) (p : String)
    (t now : ℚ) (hlast : lt ch = t) :
    (now - t < config.QR_COOLDOWN_SECONDS →
      monitor_camera_step lt ch p now = (none, lt)) ∧
    (¬ now - t < config.QR_COOLDOWN_SECONDS →
      monitor_camera_step lt ch p now =
        (some { channel := ch, payload := p, time := now },
          fun c => if c = ch then now else lt c)) ∧
    (∀ lt2 : Channel → ℚ, lt2 ch2 = lt ch2 →
      (monitor_camera_step lt2 ch2 p now).1 = (monitor_camera_step lt ch2 p now).1) := by
  subst hlast
  refine ⟨fun h => ?_, fun h => ?_, fun lt2 h2 => ?_⟩
  · unfold monitor_camera_step
    rw [if_pos h]
  · unfold monitor_camera_step
    rw [if_neg h]
  · unfold monitor_camera_step
    rw [h2]
    split_ifs <;> rfl

/-- Witness for C2: with a cooldown stamp at time 0, a same-channel
detection at 1 s is suppressed, one at 6 s is admitted, and the other
channel's result at 6 s ignores the first channel's stamp. -/
theorem claim_C2_witness :
    monitor_camera_step (fun _ => 0) Channel.entry "QR1" 1 = (none, fun _ => 0) ∧
    monitor_camera_step (fun _ => 0) Channel.entry "QR1" 6 =
      (some { channel := Channel.entry, payload := "QR1", time := 6 },
        fun c => if c = Channel.entry then 6 else 0) ∧
    (monitor_camera_step (fun c => if c = Channel.entry then 100 else 0)
        Channel.exitCam "QR2" 6).1 =
      (monitor_camera_step (fun _ => 0) Channel.exitCam "QR2" 6).1 :=
  ⟨(claim_C2_detection_gate (fun _ => 0) Channel.entry Channel.exitCam "QR1" 0 1 rfl).1
      (by norm_num [config.QR_COOLDOWN_SECONDS]),
    (claim_C2_detection_gate (fun _ => 0) Channel.entry Channel.exitCam "QR1" 0 6 rfl).2.1
      (by norm_num [config.QR_COOLDOWN_SECONDS]),
    (claim_C2_detection_gate (fun _ => 0) Channel.entry Channel.exitCam "QR2" 0 6 rfl).2.2
      (fun c => if c = Channel.entry then 100 else 0) rfl⟩

/-! ### Door-command theorems -/

/-- C5 (amended): `_handle_door_command` logs an invalid-JSON error on an
unparseable payload and an unknown-action warning when the lowercased
`action` is not `"open"` (covering `action:"close"` and a missing `action`),
and it accepts the well-formed open/exit message; but it performs no lane
validation: any `barrier` value, known or not, is passed through to the
dispatch callback. -/
theorem claim_C5_command_validation (m : DoorMsg) :
    handle_door_command .malformed = .invalidJson ∧
    (pyLower (m.action.getD "") ≠ "open" →
      handle_door_command (.parsed m) = .unknownAction (pyLower (m.action.getD ""))) ∧
    (pyLower (m.action.getD "") = "open" →
      handle_door_command (.parsed m) =
        .dispatched (pyLower (m.barrier.getD "")) (m.userId.getD "Unknown")
          (m.slotNumber.getD 0) (m.timestamp.getD "")) ∧
    handle_door_command (.parsed
      { action := some "close", barrier := some "entry", userId := some "U1",
        slotNumber := some 7, timestamp := some "T" }) = .unknownAction "close" ∧
    handle_door_command (.parsed
      { action := none, barrier := some "entry", userId := some "U1",
        slotNumber := some 7, timestamp := some "T" }) = .unknownAction "" ∧
    handle_door_command (.parsed
      { action := some "open", barrier := some "exit", userId := some "U1",
        slotNumber := some 7, timestamp := some "2025-01-01T00:00:00" }) =
      .dispatched "exit" "U1" 7 "2025-01-01T00:00:00" := by
  refine ⟨rfl, fun h => ?_, fun h => ?_, by decide, by decide, by decide⟩
  · show (if pyLower (m.action.getD "") = "open" then _ else _) = _
    rw [if_neg h]
  · show (if pyLower (m.action.getD "") = "open" then _ else _) = _
    rw [if_pos h]

/-- Witness for C5 on concrete messages. -/
theorem claim_C5_witness :
    handle_door_command (.parsed
      { action := some "close", barrier := some "garage", userId := none,
        slotNumber := none, timestamp := none }) = .unknownAction "close" ∧
    handle_door_command (.parsed
      { action := some "open", barrier := some "exit", userId := some "U1",
        slotNumber := some 7, timestamp := some "2025-01-01T00:00:00" }) =
      .dispatched "exit" "U1" 7 "2025-01-01T00:00:00" :=
  ⟨(claim_C5_command_validation
      { action := some "close", barrier := some "garage", userId := none,
        slotNumber := none, timestamp := none }).2.1 (by decide),
    (claim_C5_command_validation
      { action := some "open", barrier := some "exit", userId := some "U1",
        slotNumber := some 7, timestamp := some "T" }).2.2.2.2.2⟩

/-- C5 counterexample to the claim as stated: a message with
`barrier:"garage"` and `action:"open"` is not rejected with an invalid-lane
error — it is dispatched to the callback with the unknown lane string. -/
theorem claim_C5_counterexample :
    handle_door_command (.parsed
      { action := some "open", barrier := some "garage", userId := some "U1",
        slotNumber := some 7, timestamp := some "T" }) =
      .dispatched "garage" "U1" 7 "T" := by
  decide

/-- C10: a parsed door command whose `action` lowercases to `"open"` is
dispatched even when `userId`, `slotNumber` and `timestamp` are absent,
substituting the defaults `"Unknown"`, `0` and `""`. -/
theorem claim_C10_open_defaults (a : String) (b : Option String)
    (h : pyLower a = "open") :
    handle_door_command (.parsed
      { action := some a, barrier := b, userId := none, slotNumber := none,
        timestamp := none }) =
      .dispatched (pyLower (b.getD "")) "Unknown" 0 "" := by
  have h2 : pyLower ((some a).getD "") = "open" := h
  show (if pyLower (((some a).getD "" : String)) = "open" then _ else _) = _
  rw [if_pos h2]
  rfl

/-- Witness for C10: `action:"OPEN"` (case-insensitive match) with all
optional fields missing dispatches with the defaults. -/
theorem claim_C10_witness :
    handle_door_command (.parsed
      { action := some "OPEN", barrier := some "exit", userId := none,
        slotNumber := none, timestamp := none }) =
      .dispatched "exit" "Unknown" 0 "" := by
  have h := claim_C10_open_defaults "OPEN" (some "exit") (by decide)
  simpa using h

/-! ### Sensor polling theorems -/

/-- Virtual indices below the loop counter are never written by the rest of
a pass. -/
theorem monitor_cycle_getD_lt (reads : List (Option Bool)) (stored : List Bool) (i : Nat)
    (changed : Bool) (j : Nat) (d : Bool) (hj : j < i) :
    (monitor_sensors_cycle reads stored i changed).1.getD j d = stored.getD j d := by
  induction reads generalizing stored i changed with
  | nil => rfl
  | cons r rest ih =>
    cases r with
    | none => rfl
    | some b =>
      simp only [monitor_sensors_cycle]
      split_ifs with hb
      · exact ih stored (i + 1) changed (by omega)
      · rw [ih (stored.set i b) (i + 1) true (by omega)]
        have hne : i ≠ j := by omega
        simp [List.getD_eq_getElem?_getD, List.getElem?_set_ne hne]

/-- Indices at or beyond the sensors still to be visited are never written
by a pass. -/
theorem monitor_cycle_getD_ge (reads : List (Option Bool)) (stored : List Bool) (i : Nat)
    (changed : Bool) (j : Nat) (d : Bool) (hj : i + reads.length ≤ j) :
    (monitor_sensors_cycle reads stored i changed).1.getD j d = stored.getD j d := by
  induction reads generalizing stored i changed with
  | nil => rfl
  | cons r rest ih =>
    cases r with
    | none => rfl
    | some b =>
      simp only [List.length_cons] at hj
      simp only [monitor_sensors_cycle]
      split_ifs with hb
      · exact ih stored (i + 1) changed (by omega)
      · rw [ih (stored.set i b) (i + 1) true (by omega)]
        have hne : i ≠ j := by omega
        simp [List.getD_eq_getElem?_getD, List.getElem?_set_ne hne]

/-- A pass whose reads are a failure-free prefix followed by a failing read
aborts at the failure: the writes made on the prefix stay, the callback flag
is lost and the exception is caught. -/
theorem monitor_cycle_append_none (pre rest : List (Option Bool)) (stored : List Bool)
    (i : Nat) (changed : Bool) (hpre : ∀ x ∈ pre, x.isSome = true) :
    monitor_sensors_cycle (pre ++ none :: rest) stored i changed =
      ((monitor_sensors_cycle pre stored i changed).1, false, true) := by
  induction pre generalizing stored i changed with
  | nil => rfl
  | cons r pre ih =>
    cases r with
    | none => exact absurd (hpre none (List.mem_cons_self _ _)) (by simp)
    | some b =>
      simp only [List.cons_append, monitor_sensors_cycle]
      split_ifs with hb
      · exact ih stored (i + 1) changed (fun x hx => hpre x (List.mem_cons_of_mem _ hx))
      · exact ih (stored.set i b) (i + 1) true (fun x hx => hpre x (List.mem_cons_of_mem _ hx))

/-- When the callback fires, the pass completed without an exception and,
unless the flag was already set on entry, the stored state really changed. -/
theorem monitor_cycle_fired (reads : List (Option Bool)) (stored : List Bool) (i : Nat)
    (changed : Bool) (hlen : i + reads.length ≤ stored.length)
    (hf : (monitor_sensors_cycle reads stored i changed).2.1 = true) :
    (changed = true ∨ (monitor_sensors_cycle reads stored i changed).1 ≠ stored) ∧
    (monitor_sensors_cycle reads stored i changed).2.2 = false := by
  induction reads generalizing stored i changed with
  | nil => exact ⟨Or.inl hf, rfl⟩
  | cons r rest ih =>
    cases r with
    | none => exact absurd hf (by simp [monitor_sensors_cycle])
    | some b =>
      simp only [List.length_cons] at hlen
      simp only [monitor_sensors_cycle] at hf ⊢
      split_ifs at hf ⊢ with hb
      · exact ih stored (i + 1) changed (by omega) hf
      · refine ⟨Or.inr ?_,
          (ih (stored.set i b) (i + 1) true (by rw [List.length_set]; omega) hf).2⟩
        have hi : i < stored.length := by omega
        have hres : (monitor_sensors_cycle rest (stored.set i b) (i + 1) true).1.getD i false
            = b := by
          rw [monitor_cycle_getD_lt rest (stored.set i b) (i + 1) true i false (by omega)]
          simp [List.getD_eq_getElem?_getD, List.getElem?_set_eq_of_lt b hi]
        intro hcon
        rw [hcon] at hres
        exact hb hres.symm

/-- C7 (amended): a failed hardware read aborts the comparison pass: the
loop survives (the exception is caught and logged), the failing sensor and
all later sensors keep their last known values, and no callback fires that
cycle — but sensors earlier in the pass keep the values already written, so
the stored state can be left partially updated relative to the pass, and
those changes are reported by no callback; the callback fires only when a
fully completed pass saw at least one sensor change. -/
theorem claim_C7_poll_failure (pre rest reads : List (Option Bool)) (stored : List Bool)
    (hpre : ∀ x ∈ pre, x.isSome = true) (hlen : reads.length ≤ stored.length) :
    (monitor_sensors_cycle (pre ++ none :: rest) stored 0 false =
      ((monitor_sensors_cycle pre stored 0 false).1, false, true)) ∧
    (∀ j d, pre.length ≤ j →
      (monitor_sensors_cycle (pre ++ none :: rest) stored 0 false).1.getD j d
        = stored.getD j d) ∧
    ((monitor_sensors_cycle reads stored 0 false).2.1 = true →
      (monitor_sensors_cycle reads stored 0 false).1 ≠ stored ∧
      (monitor_sensors_cycle reads stored 0 false).2.2 = false) := by
  refine ⟨monitor_cycle_append_none pre rest stored 0 false hpre, ?_, ?_⟩
  · intro j d hj
    rw [monitor_cycle_append_none pre rest stored 0 false hpre]
    exact monitor_cycle_getD_ge pre stored 0 false j d (by omega)
  · intro hf
    rcases monitor_cycle_fired reads stored 0 false (by omega) hf with ⟨hc, hab⟩
    rcases hc with hc | hc
    · exact absurd hc (by simp)
    · exact ⟨hc, hab⟩

/-- Witness for C7: one changed sensor followed by a failing read; the
failing sensor keeps its last known value. -/
theorem claim_C7_witness :
    (monitor_sensors_cycle [some true, none] [false, false] 0 false).1.getD 1 false = false :=
  (claim_C7_poll_failure [some true] [] [some true, some true] [false, false]
    (by decide) (by decide)).2.1 1 false (by decide)

/-- C7 counterexample to the claim as stated: with stored state
`[false, false]`, sensor 0 reading occupied and sensor 1's read raising, the
pass leaves the stored state partially updated (`[true, false]`) with no
callback — so the stored physical sensor state is not protected from partial
update by a failed read. -/
theorem claim_C7_counterexample :
    (monitor_sensors_cycle [some true, none] [false, false] 0 false).1 ≠ [false, false] ∧
    monitor_sensors_cycle [some true, none] [false, false] 0 false =
      ([true, false], false, true) := by
  constructor
  · decide
  · decide

/-- Witness for C4 at a concrete state: opening the closed entry lane at
time 3 actuates once and stamps the timer. -/
theorem claim_C4_witness :
    open_barrier true "entry" 3 barrierInit =
      { state := { barrierInit with entry_open := true, entry_timer := 3 }
        actuations := [("entry", config.BARRIER_OPEN_ANGLE)]
        raised := false
        caught := false } :=
  (claim_C4_open_always_actuates barrierInit 3 0).1

/-- Witness for C6 at a concrete state: a failed open of the entry lane
leaves the initial state unchanged. -/
theorem claim_C6_witness :
    (open_barrier false "entry" 1 barrierInit).state = barrierInit :=
  (claim_C6_actuation_failure_semantics "entry" 1 barrierInit).1

end SmartParking
